import Mathlib

/-!
Shallow embedding of `crates/ibc/src/clients/ics07_tendermint/misbehaviour.rs`
(heliaxdev/cosmos-ibc-rs): the tendermint light-client misbehaviour evidence
aggregate, its validating factory `Misbehaviour::new`, its accessors, and its
wire codec (`RawMisbehaviour` / `Any` envelope).

Types defined in other modules of the repository (Height, ClientId, ChainId,
Header) or in external crates (tendermint, tendermint-light-client-verifier,
prost) are modelled from the spec where they are not part of `src/`:
- `Hash` digests are modelled as natural numbers: the evidence code only
  compares digests for equality and displays them.
- the `Hasher` and `CommitValidator` strategies are external capabilities
  (`ProdHasher`, `ProdCommitValidator`); the spec requires them to be
  swappable pure strategies, so they are passed as explicit structure
  parameters and all theorems quantify over them.
- the prost byte codec for `RawMisbehaviour` and the header wire conversions
  live outside `src/`; they are passed as codec capabilities with explicit
  round-trip hypotheses where a claim needs them.
-/

/-- Modelled from the spec: digest values; the core only compares and
displays them, so they are an abstract type with decidable equality. -/
abbrev Hash : Type := Nat

/-- Modelled from the spec: Height is a (revision-number, revision-height)
pair, lexicographically ordered (`crates/ibc/src/core/ics02_client/height.rs`
is not under `src/`). -/
structure Height where
  revision_number : Nat
  revision_height : Nat
deriving DecidableEq, Repr

/-- Modelled from the spec: lexicographic strict order on heights. -/
def Height.lt (a b : Height) : Bool :=
  decide (a.revision_number < b.revision_number) ||
    (decide (a.revision_number = b.revision_number) &&
      decide (a.revision_height < b.revision_height))

/-- Modelled from the spec: a height displays as "revision-height" with a
dash, as in the height-ordering error message. -/
instance : ToString Height :=
  ⟨fun h => toString h.revision_number ++ "-" ++ toString h.revision_height⟩

/-- Modelled from the spec: a validator is a (public key, voting power)
entry; the evidence code never inspects entries directly, it hands whole
sets to the Hasher and CommitValidator capabilities. -/
structure Validator where
  pub_key : Nat
  power : Nat
deriving DecidableEq, Repr

/-- Modelled from the spec: ordered collection of validators. -/
abbrev ValidatorSet : Type := List Validator

/-- Modelled from the spec: the tendermint block header fields the evidence
code reads (`chain_id`, `validators_hash`, `next_validators_hash`, height,
time). -/
structure BlockHeader where
  chain_id : String
  validators_hash : Hash
  next_validators_hash : Hash
  height : Height
  time : Nat
deriving DecidableEq

/-- Modelled from the spec: the block id carried by a commit; the evidence
code reads only its hash. -/
structure BlockId where
  hash : Hash
deriving DecidableEq

/-- Modelled from the spec: the commit is the aggregated signature set plus
the block id it attests to; signatures are opaque to this core (consumed
wholesale by the CommitValidator capability). -/
structure Commit where
  block_id : BlockId
  signatures : List Nat
deriving DecidableEq

/-- Modelled from the spec: a signed header pairs the block header with the
commit over it. -/
structure SignedHeader where
  header : BlockHeader
  commit : Commit
deriving DecidableEq

/-- Modelled from the spec: the ics07 Header value: one candidate signed
block plus the validator sets claimed to have produced it and trust
metadata (`crates/ibc/src/clients/ics07_tendermint/header.rs` is not under
`src/`). -/
structure Header where
  signed_header : SignedHeader
  validators : ValidatorSet
  next_validators : Option ValidatorSet
  trusted_height : Height
  trusted_next_validators : ValidatorSet
deriving DecidableEq

/-- Modelled from the spec: Header exposes a height accessor reading the
signed header's height. -/
def Header.height (h : Header) : Height :=
  h.signed_header.header.height

/-- Modelled from the spec: the untrusted block state view
(signed_header, validators, next_validators) consumed by validation. -/
structure UntrustedBlockState where
  signed_header : SignedHeader
  validators : ValidatorSet
  next_validators : Option ValidatorSet
deriving DecidableEq

/-- Modelled from the spec: Header's conversion into the untrusted block
state view; it performs no validation. -/
def Header.as_untrusted_block_state (h : Header) : UntrustedBlockState :=
  { signed_header := h.signed_header
    validators := h.validators
    next_validators := h.next_validators }

/-- Modelled from the spec: a validated client identifier, format-checked at
parse time by an external identifier collaborator; the evidence code only
stores and re-serializes it. -/
structure ClientId where
  id : String
deriving DecidableEq

/-- Modelled from the spec: a validated chain identifier
(`crates/ibc/src/core/ics24_host/identifier.rs` is not under `src/`);
`as_str` exposes the underlying string. -/
structure ChainId where
  id : String
deriving DecidableEq

/-- Modelled from the spec: `ChainId::as_str`. -/
def ChainId.as_str (c : ChainId) : String := c.id

/-- Modelled from the spec: the error kinds of the ics07 client that the
misbehaviour module produces (`error.rs` is not under `src/`): malformed
input, structural validation failure, commit/quorum failure, decode
failure. -/
inductive Error where
  | InvalidRawMisbehaviour (reason : String)
  | Validation (reason : String)
  | InvalidRawClientId (client_id : String)
  | Decode (err : String)
  | NotEnoughTrustedValsSigned (reason : String)
  | VerificationError (detail : String)
deriving DecidableEq

/-- Modelled from the spec: the CommitValidator verdict:
Success, Invalid(reason) or NotEnoughTrust(reason). -/
inductive Verdict where
  | Success
  | NotEnoughTrust (reason : String)
  | Invalid (detail : String)
deriving DecidableEq

/-- Modelled from the spec: `IntoResult for Verdict` (`error.rs`, not under
`src/`): Success becomes Ok, the two failure verdicts become the two
commit/quorum error kinds, carrying the verdict's reason. -/
def Verdict.into_result : Verdict → Except Error Unit
  | .Success => .ok ()
  | .NotEnoughTrust reason => .error (.NotEnoughTrustedValsSigned reason)
  | .Invalid detail => .error (.VerificationError detail)

/-- Modelled from the spec: the pure hashing strategy
(`hash_validator_set`, `hash_header`); `ProdHasher` is external, so the
strategy is an explicit capability parameter. -/
structure Hasher where
  hash_validator_set : ValidatorSet → Hash
  hash_header : BlockHeader → Hash

/-- Modelled from the spec: the pure commit-validation strategy
(`validate` structural check, `validate_full` quorum voting-power check);
`ProdCommitValidator` is external, so the strategy is an explicit
capability parameter. The `Into<Verdict>` conversion on its results is
absorbed into the result type. -/
structure CommitValidator where
  validate : SignedHeader → ValidatorSet → Verdict
  validate_full : SignedHeader → ValidatorSet → Verdict

/-- `TENDERMINT_MISBEHAVIOUR_TYPE_URL` (misbehaviour.rs line 21). -/
def TENDERMINT_MISBEHAVIOUR_TYPE_URL : String :=
  "/ibc.lightclients.tendermint.v1.Misbehaviour"

/-- The `Misbehaviour` aggregate (misbehaviour.rs lines 25-29). -/
structure Misbehaviour where
  client_id : ClientId
  header1 : Header
  header2 : Header
deriving DecidableEq

/-- `Misbehaviour::verify_validator_sets` (misbehaviour.rs lines 110-124). -/
def Misbehaviour.verify_validator_sets (validators_hash : Hash)
    (header_validators_hash : Hash) : Except Error Unit :=
  if header_validators_hash = validators_hash then
    .ok ()
  else
    .error (.Validation
      ("invalid validator set: header_validators_hash " ++
        toString header_validators_hash ++ ", validators_hash " ++
        toString validators_hash))

/-- `Misbehaviour::verify_cur_validator_sets` (misbehaviour.rs lines
90-95); the `ProdHasher` constructed there is the external hashing
capability, passed as `hasher`. -/
def Misbehaviour.verify_cur_validator_sets (hasher : Hasher)
    (untrusted_state : UntrustedBlockState) : Except Error Unit :=
  let validators_hash := hasher.hash_validator_set untrusted_state.validators
  let header_validators_hash :=
    untrusted_state.signed_header.header.validators_hash
  Misbehaviour.verify_validator_sets validators_hash header_validators_hash

/-- `Misbehaviour::verify_next_validator_sets` (misbehaviour.rs lines
97-108). -/
def Misbehaviour.verify_next_validator_sets (hasher : Hasher)
    (untrusted_state : UntrustedBlockState) : Except Error Unit :=
  match untrusted_state.next_validators with
  | some untrusted_next_validators =>
    let validators_hash := hasher.hash_validator_set untrusted_next_validators
    let header_validators_hash :=
      untrusted_state.signed_header.header.next_validators_hash
    Misbehaviour.verify_validator_sets validators_hash header_validators_hash
  | none => .ok ()

/-- `Misbehaviour::verify_header_commit` (misbehaviour.rs lines 126-140). -/
def Misbehaviour.verify_header_commit (hasher : Hasher)
    (untrusted_state : UntrustedBlockState) : Except Error Unit :=
  let header_hash := hasher.hash_header untrusted_state.signed_header.header
  let commit_hash := untrusted_state.signed_header.commit.block_id.hash
  if header_hash = commit_hash then
    .ok ()
  else
    .error (.Validation
      ("invalid header commit: header_hash " ++ toString header_hash ++
        ", commit_hash " ++ toString commit_hash))

/-- `Misbehaviour::valid_commit` (misbehaviour.rs lines 142-156): runs the
CommitValidator's structural check then its quorum check, converting each
verdict through `into_result`. -/
def Misbehaviour.valid_commit (cv : CommitValidator)
    (untrusted_state : UntrustedBlockState) : Except Error Unit := do
  let signed_header := untrusted_state.signed_header
  let validators := untrusted_state.validators
  (cv.validate signed_header validators).into_result
  (cv.validate_full signed_header validators).into_result
  pure ()

/-- `Misbehaviour::new` (misbehaviour.rs lines 32-67): the validating
factory, fail-fast in source order. -/
def Misbehaviour.new (hasher : Hasher) (cv : CommitValidator)
    (client_id : ClientId) (header1 header2 : Header) :
    Except Error Misbehaviour :=
  if header1.signed_header.header.chain_id ≠
      header2.signed_header.header.chain_id then
    .error (.InvalidRawMisbehaviour "headers must have identical chain_ids")
  else if Height.lt header1.height header2.height then
    .error (.InvalidRawMisbehaviour
      ("headers1 height is less than header2 height (" ++
        toString header1.height ++ " < " ++ toString header2.height ++ ")"))
  else
    let untrusted_state_1 := header1.as_untrusted_block_state
    let untrusted_state_2 := header2.as_untrusted_block_state
    do
    Misbehaviour.verify_cur_validator_sets hasher untrusted_state_1
    Misbehaviour.verify_cur_validator_sets hasher untrusted_state_2
    Misbehaviour.verify_next_validator_sets hasher untrusted_state_1
    Misbehaviour.verify_next_validator_sets hasher untrusted_state_2
    Misbehaviour.verify_header_commit hasher untrusted_state_1
    Misbehaviour.verify_header_commit hasher untrusted_state_2
    Misbehaviour.valid_commit cv untrusted_state_1
    Misbehaviour.valid_commit cv untrusted_state_2
    pure { client_id := client_id, header1 := header1, header2 := header2 }

/-- `Misbehaviour::chain_id_matches` (misbehaviour.rs lines 81-88): the
source first runs `assert_eq!` on the two headers' chain ids (a panic on
a broken invariant), then compares against the candidate's string. The
panic is modelled as `none`. -/
def Misbehaviour.chain_id_matches (m : Misbehaviour) (chain_id : ChainId) :
    Option Bool :=
  if m.header1.signed_header.header.chain_id =
      m.header2.signed_header.header.chain_id then
    some (m.header1.signed_header.header.chain_id == chain_id.as_str)
  else
    none

/-- `impl ics02 Misbehaviour for Misbehaviour: height` (misbehaviour.rs
lines 164-166): the evidence's reported height is header1's height. -/
def Misbehaviour.height (m : Misbehaviour) : Height :=
  m.header1.height

/-! ### Helper lemmas about the `Except` monad used by the evidence code -/

@[simp]
theorem ebind_ok {ε : Type u} {α β : Type v} (a : α) (f : α → Except ε β) :
    (Except.ok a >>= f) = f a := rfl

@[simp]
theorem ebind_error {ε : Type u} {α β : Type v} (e : ε)
    (f : α → Except ε β) :
    ((Except.error e : Except ε α) >>= f) = Except.error e := rfl

@[simp]
theorem epure_eq_ok {ε : Type u} {α : Type v} (a : α) :
    (pure a : Except ε α) = Except.ok a := rfl

@[simp]
theorem emap_ok {ε : Type u} {α β : Type v} (f : α → β) (a : α) :
    (Except.ok a : Except ε α).map f = Except.ok (f a) := rfl

@[simp]
theorem emap_error {ε : Type u} {α β : Type v} (f : α → β) (e : ε) :
    (Except.error e : Except ε α).map f = Except.error e := rfl

/-! ### Specification-level groupings of the factory's checks

These compositions are introduced only to state the fail-fast ordering
contract; `Misbehaviour.new` itself is defined above exactly in source
order. -/

/-- The four validator-set hash checks of the factory, in source order
(misbehaviour.rs lines 52-55). -/
def Misbehaviour.validatorSetChecks (hasher : Hasher)
    (u1 u2 : UntrustedBlockState) : Except Error Unit := do
  Misbehaviour.verify_cur_validator_sets hasher u1
  Misbehaviour.verify_cur_validator_sets hasher u2
  Misbehaviour.verify_next_validator_sets hasher u1
  Misbehaviour.verify_next_validator_sets hasher u2

/-- The two header/commit binding checks of the factory, in source order
(misbehaviour.rs lines 57-58). -/
def Misbehaviour.headerCommitChecks (hasher : Hasher)
    (u1 u2 : UntrustedBlockState) : Except Error Unit := do
  Misbehaviour.verify_header_commit hasher u1
  Misbehaviour.verify_header_commit hasher u2

/-- All six hash-comparison checks of the factory (validator sets then
header/commit binding), in source order. -/
def Misbehaviour.hashChecks (hasher : Hasher)
    (u1 u2 : UntrustedBlockState) : Except Error Unit := do
  Misbehaviour.validatorSetChecks hasher u1 u2
  Misbehaviour.headerCommitChecks hasher u1 u2

/-- The two commit signature/quorum checks of the factory, in source order
(misbehaviour.rs lines 59-60). -/
def Misbehaviour.commitChecks (cv : CommitValidator)
    (u1 u2 : UntrustedBlockState) : Except Error Unit := do
  Misbehaviour.valid_commit cv u1
  Misbehaviour.valid_commit cv u2

/-- The whole check pipeline of the factory after the chain-id and height
guards, in source order. -/
def Misbehaviour.newChecks (hasher : Hasher) (cv : CommitValidator)
    (header1 header2 : Header) : Except Error Unit := do
  Misbehaviour.hashChecks hasher header1.as_untrusted_block_state
    header2.as_untrusted_block_state
  Misbehaviour.commitChecks cv header1.as_untrusted_block_state
    header2.as_untrusted_block_state

/-- The exact height-ordering rejection reason produced by the factory. -/
def heightMismatchReason (header1 header2 : Header) : String :=
  "headers1 height is less than header2 height (" ++
    toString header1.height ++ " < " ++ toString header2.height ++ ")"

/-- Decomposition of the factory: the two guards, then the check pipeline,
then the aggregate is assembled from the arguments unchanged. -/
theorem Misbehaviour.new_eq (hasher : Hasher) (cv : CommitValidator)
    (cid : ClientId) (h1 h2 : Header) :
    Misbehaviour.new hasher cv cid h1 h2 =
      if h1.signed_header.header.chain_id ≠ h2.signed_header.header.chain_id
      then
        Except.error
          (Error.InvalidRawMisbehaviour "headers must have identical chain_ids")
      else if Height.lt h1.height h2.height then
        Except.error (Error.InvalidRawMisbehaviour (heightMismatchReason h1 h2))
      else
        (Misbehaviour.newChecks hasher cv h1 h2).map
          (fun _ => { client_id := cid, header1 := h1, header2 := h2 }) := by
  simp only [Misbehaviour.new, Misbehaviour.newChecks, Misbehaviour.hashChecks,
    Misbehaviour.validatorSetChecks, Misbehaviour.headerCommitChecks,
    Misbehaviour.commitChecks, heightMismatchReason]
  split
  · rfl
  · split
    · rfl
    · cases c1 : Misbehaviour.verify_cur_validator_sets hasher
          h1.as_untrusted_block_state <;>
        simp only [c1, ebind_ok, ebind_error, emap_ok, emap_error,
          epure_eq_ok] <;>
      cases c2 : Misbehaviour.verify_cur_validator_sets hasher
          h2.as_untrusted_block_state <;>
        simp only [c2, ebind_ok, ebind_error, emap_ok, emap_error,
          epure_eq_ok] <;>
      cases c3 : Misbehaviour.verify_next_validator_sets hasher
          h1.as_untrusted_block_state <;>
        simp only [c3, ebind_ok, ebind_error, emap_ok, emap_error,
          epure_eq_ok] <;>
      cases c4 : Misbehaviour.verify_next_validator_sets hasher
          h2.as_untrusted_block_state <;>
        simp only [c4, ebind_ok, ebind_error, emap_ok, emap_error,
          epure_eq_ok] <;>
      cases c5 : Misbehaviour.verify_header_commit hasher
          h1.as_untrusted_block_state <;>
        simp only [c5, ebind_ok, ebind_error, emap_ok, emap_error,
          epure_eq_ok] <;>
      cases c6 : Misbehaviour.verify_header_commit hasher
          h2.as_untrusted_block_state <;>
        simp only [c6, ebind_ok, ebind_error, emap_ok, emap_error,
          epure_eq_ok] <;>
      cases c7 : Misbehaviour.valid_commit cv h1.as_untrusted_block_state <;>
        simp only [c7, ebind_ok, ebind_error, emap_ok, emap_error,
          epure_eq_ok] <;>
      cases c8 : Misbehaviour.valid_commit cv h2.as_untrusted_block_state <;>
        simp only [c8, ebind_ok, ebind_error, emap_ok, emap_error,
          epure_eq_ok]

/-- The chain-id mismatch rejection produced by the factory's first guard. -/
def chainIdMismatchError : Error :=
  Error.InvalidRawMisbehaviour "headers must have identical chain_ids"

/-- Success characterization of the factory: it returns `ok` exactly when
both guards and the whole check pipeline pass, and then the aggregate is
assembled from the arguments unchanged. -/
theorem Misbehaviour.new_ok_iff (hasher : Hasher) (cv : CommitValidator)
    (cid : ClientId) (h1 h2 : Header) (m : Misbehaviour) :
    Misbehaviour.new hasher cv cid h1 h2 = Except.ok m ↔
      (h1.signed_header.header.chain_id = h2.signed_header.header.chain_id ∧
        Height.lt h1.height h2.height = false ∧
        Misbehaviour.newChecks hasher cv h1 h2 = Except.ok () ∧
        m = { client_id := cid, header1 := h1, header2 := h2 }) := by
  rw [Misbehaviour.new_eq]
  by_cases hch :
      h1.signed_header.header.chain_id = h2.signed_header.header.chain_id
  · by_cases hlt : Height.lt h1.height h2.height = true
    · simp [hch, hlt]
    · rw [Bool.not_eq_true] at hlt
      cases hc : Misbehaviour.newChecks hasher cv h1 h2 with
      | error e =>
        simp [hch, hlt, hc]
      | ok v =>
        cases v
        simp only [hch, hlt, hc]
        simp [eq_comm]
  · simp [hch]

/-- Failure characterization of the factory: exactly one of the chain-id
guard, the height guard, or the check pipeline produced the error, in that
priority order. -/
theorem Misbehaviour.new_error_iff (hasher : Hasher) (cv : CommitValidator)
    (cid : ClientId) (h1 h2 : Header) (e : Error) :
    Misbehaviour.new hasher cv cid h1 h2 = Except.error e ↔
      ((h1.signed_header.header.chain_id ≠
          h2.signed_header.header.chain_id ∧ e = chainIdMismatchError) ∨
        (h1.signed_header.header.chain_id =
            h2.signed_header.header.chain_id ∧
          Height.lt h1.height h2.height = true ∧
          e = Error.InvalidRawMisbehaviour (heightMismatchReason h1 h2)) ∨
        (h1.signed_header.header.chain_id =
            h2.signed_header.header.chain_id ∧
          Height.lt h1.height h2.height = false ∧
          Misbehaviour.newChecks hasher cv h1 h2 = Except.error e)) := by
  rw [Misbehaviour.new_eq]
  by_cases hch :
      h1.signed_header.header.chain_id = h2.signed_header.header.chain_id
  · by_cases hlt : Height.lt h1.height h2.height = true
    · simp only [hch, hlt]
      simp [eq_comm]
    · rw [Bool.not_eq_true] at hlt
      cases hc : Misbehaviour.newChecks hasher cv h1 h2 with
      | error e0 =>
        simp only [hch, hlt, hc]
        simp [eq_comm]
      | ok v =>
        cases v
        simp [hch, hlt, hc]
  · rw [if_pos hch]
    constructor
    · intro h
      exact Or.inl ⟨hch, (Except.error.inj h).symm⟩
    · intro h
      rcases h with ⟨-, rfl⟩ | ⟨hc, -, -⟩ | ⟨hc, -, -⟩
      · rfl
      · exact absurd hc hch
      · exact absurd hc hch

/-- `verify_validator_sets` only ever fails with a `Validation` error. -/
theorem Misbehaviour.verify_validator_sets_error_shape (a b : Hash)
    (e : Error) (h : Misbehaviour.verify_validator_sets a b = Except.error e) :
    ∃ s, e = Error.Validation s := by
  unfold Misbehaviour.verify_validator_sets at h
  by_cases hab : b = a
  · rw [if_pos hab] at h
    exact absurd h (by simp)
  · rw [if_neg hab] at h
    exact ⟨_, (Except.error.inj h).symm⟩

/-- `verify_cur_validator_sets` only ever fails with a `Validation` error. -/
theorem Misbehaviour.verify_cur_validator_sets_error_shape (hasher : Hasher)
    (u : UntrustedBlockState) (e : Error)
    (h : Misbehaviour.verify_cur_validator_sets hasher u = Except.error e) :
    ∃ s, e = Error.Validation s := by
  exact Misbehaviour.verify_validator_sets_error_shape _ _ _ h

/-- `verify_next_validator_sets` only ever fails with a `Validation`
error. -/
theorem Misbehaviour.verify_next_validator_sets_error_shape (hasher : Hasher)
    (u : UntrustedBlockState) (e : Error)
    (h : Misbehaviour.verify_next_validator_sets hasher u = Except.error e) :
    ∃ s, e = Error.Validation s := by
  unfold Misbehaviour.verify_next_validator_sets at h
  cases hn : u.next_validators with
  | some vs =>
    rw [hn] at h
    exact Misbehaviour.verify_validator_sets_error_shape _ _ _ h
  | none => rw [hn] at h; exact absurd h (by simp)

/-- `verify_header_commit` only ever fails with a `Validation` error. -/
theorem Misbehaviour.verify_header_commit_error_shape (hasher : Hasher)
    (u : UntrustedBlockState) (e : Error)
    (h : Misbehaviour.verify_header_commit hasher u = Except.error e) :
    ∃ s, e = Error.Validation s := by
  simp only [Misbehaviour.verify_header_commit] at h
  by_cases hh : hasher.hash_header u.signed_header.header =
      u.signed_header.commit.block_id.hash
  · rw [if_pos hh] at h
    exact absurd h (by simp)
  · rw [if_neg hh] at h
    exact ⟨_, (Except.error.inj h).symm⟩

/-- `valid_commit` only ever fails with one of the two commit/quorum error
kinds. -/
theorem Misbehaviour.valid_commit_error_shape (cv : CommitValidator)
    (u : UntrustedBlockState) (e : Error)
    (h : Misbehaviour.valid_commit cv u = Except.error e) :
    (∃ s, e = Error.NotEnoughTrustedValsSigned s) ∨
      (∃ s, e = Error.VerificationError s) := by
  simp only [Misbehaviour.valid_commit] at h
  cases hv : cv.validate u.signed_header u.validators <;>
    rw [hv] at h <;>
    simp only [Verdict.into_result, ebind_ok, ebind_error, epure_eq_ok] at h
  · cases hv2 : cv.validate_full u.signed_header u.validators <;>
      rw [hv2] at h <;>
      simp only [Verdict.into_result, ebind_ok, ebind_error, epure_eq_ok] at h
    · exact absurd h (by simp)
    · exact Or.inl ⟨_, (Except.error.inj h).symm⟩
    · exact Or.inr ⟨_, (Except.error.inj h).symm⟩
  · exact Or.inl ⟨_, (Except.error.inj h).symm⟩
  · exact Or.inr ⟨_, (Except.error.inj h).symm⟩

/-- Inversion for a sequenced `Except Unit` computation that failed. -/
theorem ebind_unit_error {ε β : Type} (x : Except ε Unit)
    (f : Unit → Except ε β) (e : ε) (h : (x >>= f) = Except.error e) :
    x = Except.error e ∨ (x = Except.ok () ∧ f () = Except.error e) := by
  cases x with
  | error e0 =>
    rw [ebind_error] at h
    injection h with he
    exact Or.inl (by rw [he])
  | ok v => cases v; rw [ebind_ok] at h; exact Or.inr ⟨rfl, h⟩

/-- The check pipeline never fails with an `InvalidRawMisbehaviour` error:
those come only from the two guards preceding it. -/
theorem Misbehaviour.newChecks_error_shape (hasher : Hasher)
    (cv : CommitValidator) (h1 h2 : Header) (e : Error)
    (h : Misbehaviour.newChecks hasher cv h1 h2 = Except.error e) :
    ∀ r, e ≠ Error.InvalidRawMisbehaviour r := by
  intro r
  simp only [Misbehaviour.newChecks] at h
  rcases ebind_unit_error _ _ _ h with hA | ⟨-, hA⟩
  · simp only [Misbehaviour.hashChecks] at hA
    rcases ebind_unit_error _ _ _ hA with hB | ⟨-, hB⟩
    · simp only [Misbehaviour.validatorSetChecks] at hB
      rcases ebind_unit_error _ _ _ hB with hC | ⟨-, hC⟩
      · obtain ⟨s, rfl⟩ :=
          Misbehaviour.verify_cur_validator_sets_error_shape _ _ _ hC
        simp
      · rcases ebind_unit_error _ _ _ hC with hD | ⟨-, hD⟩
        · obtain ⟨s, rfl⟩ :=
            Misbehaviour.verify_cur_validator_sets_error_shape _ _ _ hD
          simp
        · rcases ebind_unit_error _ _ _ hD with hE | ⟨-, hE⟩
          · obtain ⟨s, rfl⟩ :=
              Misbehaviour.verify_next_validator_sets_error_shape _ _ _ hE
            simp
          · obtain ⟨s, rfl⟩ :=
              Misbehaviour.verify_next_validator_sets_error_shape _ _ _ hE
            simp
    · simp only [Misbehaviour.headerCommitChecks] at hB
      rcases ebind_unit_error _ _ _ hB with hC | ⟨-, hC⟩
      · obtain ⟨s, rfl⟩ :=
          Misbehaviour.verify_header_commit_error_shape _ _ _ hC
        simp
      · obtain ⟨s, rfl⟩ :=
          Misbehaviour.verify_header_commit_error_shape _ _ _ hC
        simp
  · simp only [Misbehaviour.commitChecks] at hA
    rcases ebind_unit_error _ _ _ hA with hB | ⟨-, hB⟩
    · rcases Misbehaviour.valid_commit_error_shape _ _ _ hB with
        ⟨s, rfl⟩ | ⟨s, rfl⟩ <;> simp
    · rcases Misbehaviour.valid_commit_error_shape _ _ _ hB with
        ⟨s, rfl⟩ | ⟨s, rfl⟩ <;> simp

/-! ### Wire codec layer (`RawMisbehaviour`, `Any` envelope)

The prost-generated `RawMisbehaviour` payload type belongs to the external
`ibc-proto` crate and the header wire conversions live in the repository's
header module, outside `src/`; they are modelled from the spec as opaque
codec capabilities, and the round-trip theorems take their round-trip laws
as explicit hypotheses. -/

/-- Modelled from the spec: the header wire structure; opaque at this
level, the evidence codec only wraps and unwraps it. -/
structure RawHeader where
  payload : Header
deriving DecidableEq

/-- The raw (wire) misbehaviour payload: a string client id and two
optional raw headers, as in
`ibc_proto::ibc::lightclients::tendermint::v1::Misbehaviour`. -/
structure RawMisbehaviour where
  client_id : String
  header_1 : Option RawHeader
  header_2 : Option RawHeader
deriving DecidableEq

/-- Modelled from the spec: the header wire conversions
(`From<Header> for RawHeader` and `TryFrom<RawHeader> for Header`,
in the repository's header module, not under `src/`). -/
structure HeaderCodec where
  toRaw : Header → RawHeader
  fromRaw : RawHeader → Except Error Header

/-- Modelled from the spec: the external prost byte codec for
`RawMisbehaviour` (`Message::encode` / `Message::decode`); the byte buffer
type is opaque. -/
structure WireCodec (β : Type) where
  encode : RawMisbehaviour → β
  decode : β → Except String RawMisbehaviour

/-- The `google.protobuf.Any` envelope: a type-url tag plus an opaque
encoded payload. -/
structure Any (β : Type) where
  type_url : String
  value : β
deriving DecidableEq

/-- Modelled from the spec: the ics02 client error kinds reached from this
module: the unknown-envelope-tag error carrying the tag verbatim, and the
wrapper for a client-specific (ics07) error (`Into<ClientError>` lives in
`ics02_client/error.rs`, not under `src/`). -/
inductive ClientError where
  | UnknownMisbehaviourType (misbehaviour_type : String)
  | ClientSpecific (e : Error)
deriving DecidableEq

/-- `TryFrom<RawMisbehaviour> for Misbehaviour` (misbehaviour.rs lines
171-196): parse the client id, unwrap both headers, convert them, then run
the validating factory. -/
def Misbehaviour.try_from_raw (hc : HeaderCodec)
    (parse : String → Option ClientId) (hasher : Hasher)
    (cv : CommitValidator) (raw : RawMisbehaviour) :
    Except Error Misbehaviour := do
  let client_id ←
    match parse raw.client_id with
    | some c => Except.ok c
    | none => Except.error (Error.InvalidRawClientId raw.client_id)
  let header1 ←
    match raw.header_1 with
    | some r => hc.fromRaw r
    | none => Except.error (Error.InvalidRawMisbehaviour "missing header1")
  let header2 ←
    match raw.header_2 with
    | some r => hc.fromRaw r
    | none => Except.error (Error.InvalidRawMisbehaviour "missing header2")
  Misbehaviour.new hasher cv client_id header1 header2

/-- `From<Misbehaviour> for RawMisbehaviour` (misbehaviour.rs lines
198-206). -/
def RawMisbehaviour.from_misbehaviour (hc : HeaderCodec)
    (value : Misbehaviour) : RawMisbehaviour :=
  { client_id := value.client_id.id
    header_1 := some (hc.toRaw value.header1)
    header_2 := some (hc.toRaw value.header2) }

/-- `decode_misbehaviour` (misbehaviour.rs lines 243-247, and its local
copy inside `TryFrom<Any>`, lines 216-220): prost-decode the buffer,
wrapping decode failures in `Error::Decode`, then convert through
`TryFrom<RawMisbehaviour>`. -/
def decode_misbehaviour {β : Type} (wc : WireCodec β) (hc : HeaderCodec)
    (parse : String → Option ClientId) (hasher : Hasher)
    (cv : CommitValidator) (buf : β) : Except Error Misbehaviour := do
  let raw ←
    match wc.decode buf with
    | Except.ok r => Except.ok r
    | Except.error err => Except.error (Error.Decode err)
  Misbehaviour.try_from_raw hc parse hasher cv raw

/-- `TryFrom<Any> for Misbehaviour` (misbehaviour.rs lines 210-231):
dispatch on the type url; on the recognized tag decode the payload, on any
other tag fail with `UnknownMisbehaviourType` carrying the tag. -/
def Misbehaviour.try_from_any {β : Type} (wc : WireCodec β)
    (hc : HeaderCodec) (parse : String → Option ClientId) (hasher : Hasher)
    (cv : CommitValidator) (raw : Any β) : Except ClientError Misbehaviour :=
  if raw.type_url = TENDERMINT_MISBEHAVIOUR_TYPE_URL then
    match decode_misbehaviour wc hc parse hasher cv raw.value with
    | Except.ok m => Except.ok m
    | Except.error e => Except.error (ClientError.ClientSpecific e)
  else
    Except.error (ClientError.UnknownMisbehaviourType raw.type_url)

/-- `From<Misbehaviour> for Any` (misbehaviour.rs lines 233-241): tag with
the fixed type url and prost-encode the raw payload. -/
def Misbehaviour.to_any {β : Type} (wc : WireCodec β) (hc : HeaderCodec)
    (misbehaviour : Misbehaviour) : Any β :=
  { type_url := TENDERMINT_MISBEHAVIOUR_TYPE_URL
    value := wc.encode (RawMisbehaviour.from_misbehaviour hc misbehaviour) }

/-! ### Success-direction helper lemmas -/

/-- `verify_cur_validator_sets` succeeds when the recomputed hash matches
the embedded one. -/
theorem Misbehaviour.verify_cur_validator_sets_ok_of (hasher : Hasher)
    (u : UntrustedBlockState)
    (h : hasher.hash_validator_set u.validators =
      u.signed_header.header.validators_hash) :
    Misbehaviour.verify_cur_validator_sets hasher u = Except.ok () := by
  simp only [Misbehaviour.verify_cur_validator_sets,
    Misbehaviour.verify_validator_sets]
  rw [if_pos h.symm]

/-- `verify_next_validator_sets` succeeds when the next-validator set is
absent or its recomputed hash matches the embedded one. -/
theorem Misbehaviour.verify_next_validator_sets_ok_of (hasher : Hasher)
    (u : UntrustedBlockState)
    (h : ∀ vs, u.next_validators = some vs →
      hasher.hash_validator_set vs =
        u.signed_header.header.next_validators_hash) :
    Misbehaviour.verify_next_validator_sets hasher u = Except.ok () := by
  simp only [Misbehaviour.verify_next_validator_sets]
  cases hn : u.next_validators with
  | some vs =>
    simp only [Misbehaviour.verify_validator_sets]
    rw [if_pos (h vs hn).symm]
  | none => rfl

/-- `verify_header_commit` succeeds when the recomputed header hash matches
the commit's block id hash. -/
theorem Misbehaviour.verify_header_commit_ok_of (hasher : Hasher)
    (u : UntrustedBlockState)
    (h : hasher.hash_header u.signed_header.header =
      u.signed_header.commit.block_id.hash) :
    Misbehaviour.verify_header_commit hasher u = Except.ok () := by
  simp only [Misbehaviour.verify_header_commit]
  rw [if_pos h]

/-- `valid_commit` succeeds when both commit-validation verdicts are
Success. -/
theorem Misbehaviour.valid_commit_ok_of (cv : CommitValidator)
    (u : UntrustedBlockState)
    (h1 : cv.validate u.signed_header u.validators = Verdict.Success)
    (h2 : cv.validate_full u.signed_header u.validators = Verdict.Success) :
    Misbehaviour.valid_commit cv u = Except.ok () := by
  simp only [Misbehaviour.valid_commit]
  rw [h1, h2]
  rfl

/-- The whole check pipeline succeeds when each of its eight checks
succeeds. -/
theorem Misbehaviour.newChecks_ok_of (hasher : Hasher)
    (cv : CommitValidator) (h1 h2 : Header)
    (c1 : Misbehaviour.verify_cur_validator_sets hasher
      h1.as_untrusted_block_state = Except.ok ())
    (c2 : Misbehaviour.verify_cur_validator_sets hasher
      h2.as_untrusted_block_state = Except.ok ())
    (c3 : Misbehaviour.verify_next_validator_sets hasher
      h1.as_untrusted_block_state = Except.ok ())
    (c4 : Misbehaviour.verify_next_validator_sets hasher
      h2.as_untrusted_block_state = Except.ok ())
    (c5 : Misbehaviour.verify_header_commit hasher
      h1.as_untrusted_block_state = Except.ok ())
    (c6 : Misbehaviour.verify_header_commit hasher
      h2.as_untrusted_block_state = Except.ok ())
    (c7 : Misbehaviour.valid_commit cv h1.as_untrusted_block_state =
      Except.ok ())
    (c8 : Misbehaviour.valid_commit cv h2.as_untrusted_block_state =
      Except.ok ()) :
    Misbehaviour.newChecks hasher cv h1 h2 = Except.ok () := by
  simp only [Misbehaviour.newChecks, Misbehaviour.hashChecks,
    Misbehaviour.validatorSetChecks, Misbehaviour.headerCommitChecks,
    Misbehaviour.commitChecks, c1, c2, c3, c4, c5, c6, c7, c8,
    ebind_ok, ebind_error, epure_eq_ok]

/-! ### Sample concrete values used by the witnesses -/

/-- A sample hashing capability: every digest is 0. -/
def sampleHasher : Hasher :=
  { hash_validator_set := fun _ => 0
    hash_header := fun _ => 0 }

/-- A sample commit-validation capability that accepts every commit. -/
def sampleCommitValidator : CommitValidator :=
  { validate := fun _ _ => Verdict.Success
    validate_full := fun _ _ => Verdict.Success }

/-- A sample commit-validation capability that rejects every commit with a
quorum failure. -/
def rejectingCommitValidator : CommitValidator :=
  { validate := fun _ _ => Verdict.NotEnoughTrust "no quorum"
    validate_full := fun _ _ => Verdict.NotEnoughTrust "no quorum" }

/-- A sample header builder: chain id, height, embedded hashes. -/
def mkHeader (cid : String) (rn rh : Nat) (vh nvh ch : Hash) : Header :=
  { signed_header :=
      { header :=
          { chain_id := cid
            validators_hash := vh
            next_validators_hash := nvh
            height := { revision_number := rn, revision_height := rh }
            time := 0 }
        commit := { block_id := { hash := ch }, signatures := [] } }
    validators := []
    next_validators := none
    trusted_height := { revision_number := 0, revision_height := 0 }
    trusted_next_validators := [] }

/-- A header that passes every check under `sampleHasher` and
`sampleCommitValidator`. -/
def goodHeader : Header := mkHeader "chain-a" 0 5 0 0 0

/-- A second good header on the same chain at the same height. -/
def goodHeader2 : Header := mkHeader "chain-a" 0 5 0 0 0

/-- A good header at a higher height on the same chain. -/
def goodHeaderHigh : Header := mkHeader "chain-a" 0 9 0 0 0

/-- A header on a different chain. -/
def otherChainHeader : Header := mkHeader "chain-b" 0 5 0 0 0

/-- A header whose embedded validators hash does not match the recomputed
one under `sampleHasher`. -/
def badValidatorsHashHeader : Header := mkHeader "chain-a" 0 5 1 0 0

/-- A header whose commit block id hash does not match the recomputed
header hash under `sampleHasher`. -/
def badCommitHashHeader : Header := mkHeader "chain-a" 0 5 0 0 7

/-- A sample client id. -/
def sampleClientId : ClientId := { id := "07-tendermint-0" }

/-- An extra sample header: different chain at a higher height. -/
def otherChainHeaderHigh : Header := mkHeader "chain-b" 0 9 0 0 0

/-- An extra sample header: bad validators hash at a higher height. -/
def badValidatorsHashHeaderHigh : Header := mkHeader "chain-a" 0 9 1 0 0

/-! ### Claim theorems -/

/-- With matching chain ids, no height violation and a failing hash check,
the factory propagates the hash-check error (for any commit validator). -/
theorem Misbehaviour.new_error_of_hashChecks (hasher : Hasher)
    (cv : CommitValidator) (cid : ClientId) (h1 h2 : Header) (e : Error)
    (hch : h1.signed_header.header.chain_id =
      h2.signed_header.header.chain_id)
    (hlt : Height.lt h1.height h2.height = false)
    (hhash : Misbehaviour.hashChecks hasher h1.as_untrusted_block_state
      h2.as_untrusted_block_state = Except.error e) :
    Misbehaviour.new hasher cv cid h1 h2 = Except.error e := by
  rw [Misbehaviour.new_eq, if_neg (fun hn => hn hch), if_neg (by simp [hlt])]
  simp only [Misbehaviour.newChecks, hhash, ebind_error, emap_error]

/-- With matching chain ids, no height violation, passing hash checks and a
failing commit check, the factory propagates the commit-check error. -/
theorem Misbehaviour.new_error_of_commitChecks (hasher : Hasher)
    (cv : CommitValidator) (cid : ClientId) (h1 h2 : Header) (e : Error)
    (hch : h1.signed_header.header.chain_id =
      h2.signed_header.header.chain_id)
    (hlt : Height.lt h1.height h2.height = false)
    (hhash : Misbehaviour.hashChecks hasher h1.as_untrusted_block_state
      h2.as_untrusted_block_state = Except.ok ())
    (hcommit : Misbehaviour.commitChecks cv h1.as_untrusted_block_state
      h2.as_untrusted_block_state = Except.error e) :
    Misbehaviour.new hasher cv cid h1 h2 = Except.error e := by
  rw [Misbehaviour.new_eq, if_neg (fun hn => hn hch), if_neg (by simp [hlt])]
  simp only [Misbehaviour.newChecks, hhash, hcommit, ebind_ok,
    ebind_error, emap_error]

/-- C1: the validating factory is fail-fast in a fixed order: a chain-id
mismatch is reported first regardless of heights; with matching chain ids a
height-ordering violation is reported next regardless of the hash and
commit checks; with both guards passing any failure of the six hash
comparisons is reported (its error does not depend on the commit
validator); and only with all hash checks passing is a commit-check error
reported. -/
theorem C1_fail_fast_order (hasher : Hasher) (cv : CommitValidator)
    (cid : ClientId) (h1 h2 : Header) :
    (h1.signed_header.header.chain_id ≠ h2.signed_header.header.chain_id →
      Misbehaviour.new hasher cv cid h1 h2 =
        Except.error chainIdMismatchError) ∧
    (h1.signed_header.header.chain_id = h2.signed_header.header.chain_id →
      Height.lt h1.height h2.height = true →
      Misbehaviour.new hasher cv cid h1 h2 =
        Except.error
          (Error.InvalidRawMisbehaviour (heightMismatchReason h1 h2))) ∧
    (∀ e, h1.signed_header.header.chain_id =
        h2.signed_header.header.chain_id →
      Height.lt h1.height h2.height = false →
      Misbehaviour.hashChecks hasher h1.as_untrusted_block_state
        h2.as_untrusted_block_state = Except.error e →
      Misbehaviour.new hasher cv cid h1 h2 = Except.error e) ∧
    (∀ e, h1.signed_header.header.chain_id =
        h2.signed_header.header.chain_id →
      Height.lt h1.height h2.height = false →
      Misbehaviour.hashChecks hasher h1.as_untrusted_block_state
        h2.as_untrusted_block_state = Except.ok () →
      Misbehaviour.commitChecks cv h1.as_untrusted_block_state
        h2.as_untrusted_block_state = Except.error e →
      Misbehaviour.new hasher cv cid h1 h2 = Except.error e) := by
  refine ⟨?_, ?_, ?_, ?_⟩
  · intro hne
    rw [Misbehaviour.new_eq, if_pos hne]
    rfl
  · intro hch hlt
    rw [Misbehaviour.new_eq, if_neg (fun hn => hn hch), if_pos hlt]
  · intro e hch hlt hhash
    exact Misbehaviour.new_error_of_hashChecks hasher cv cid h1 h2 e
      hch hlt hhash
  · intro e hch hlt hhash hcommit
    exact Misbehaviour.new_error_of_commitChecks hasher cv cid h1 h2 e
      hch hlt hhash hcommit

/-- Witness for C1: each of the four priority levels, exercised on concrete
inputs where all later checks would also fail. -/
theorem C1_fail_fast_order_witness :
    (Misbehaviour.new sampleHasher sampleCommitValidator sampleClientId
        goodHeader otherChainHeaderHigh =
      Except.error chainIdMismatchError) ∧
    (Misbehaviour.new sampleHasher rejectingCommitValidator sampleClientId
        badValidatorsHashHeader badValidatorsHashHeaderHigh =
      Except.error (Error.InvalidRawMisbehaviour
        (heightMismatchReason badValidatorsHashHeader
          badValidatorsHashHeaderHigh))) ∧
    (Misbehaviour.new sampleHasher rejectingCommitValidator sampleClientId
        badValidatorsHashHeader badValidatorsHashHeader =
      Except.error (Error.Validation
        "invalid validator set: header_validators_hash 1, validators_hash 0")) ∧
    (Misbehaviour.new sampleHasher rejectingCommitValidator sampleClientId
        goodHeader goodHeader2 =
      Except.error (Error.NotEnoughTrustedValsSigned "no quorum")) :=
  ⟨(C1_fail_fast_order sampleHasher sampleCommitValidator sampleClientId
      goodHeader otherChainHeaderHigh).1 (by decide),
   (C1_fail_fast_order sampleHasher rejectingCommitValidator sampleClientId
      badValidatorsHashHeader badValidatorsHashHeaderHigh).2.1 rfl rfl,
   (C1_fail_fast_order sampleHasher rejectingCommitValidator sampleClientId
      badValidatorsHashHeader badValidatorsHashHeader).2.2.1 _ rfl rfl rfl,
   (C1_fail_fast_order sampleHasher rejectingCommitValidator sampleClientId
      goodHeader goodHeader2).2.2.2 _ rfl rfl rfl rfl⟩

/-- C2: with matching chain ids the factory fails with the height-ordering
reason exactly when header1's height is lexicographically below header2's;
equal heights pass the height guard; and on success the evidence's reported
height is header1's height. -/
theorem C2_height_rejection (hasher : Hasher) (cv : CommitValidator)
    (cid : ClientId) (h1 h2 : Header)
    (hch : h1.signed_header.header.chain_id =
      h2.signed_header.header.chain_id) :
    (Misbehaviour.new hasher cv cid h1 h2 =
        Except.error
          (Error.InvalidRawMisbehaviour (heightMismatchReason h1 h2)) ↔
      Height.lt h1.height h2.height = true) ∧
    (h1.height = h2.height → Height.lt h1.height h2.height = false) ∧
    (∀ m, Misbehaviour.new hasher cv cid h1 h2 = Except.ok m →
      Misbehaviour.height m = h1.height) := by
  refine ⟨⟨?_, ?_⟩, ?_, ?_⟩
  · intro h
    rcases (Misbehaviour.new_error_iff hasher cv cid h1 h2 _).mp h with
      ⟨hne, -⟩ | ⟨-, hlt, -⟩ | ⟨-, -, hchk⟩
    · exact absurd hch hne
    · exact hlt
    · exact absurd rfl
        (Misbehaviour.newChecks_error_shape hasher cv h1 h2 _ hchk _)
  · intro hlt
    rw [Misbehaviour.new_eq, if_neg (fun hn => hn hch), if_pos hlt]
  · intro hh
    simp [Height.lt, hh]
  · intro m hm
    obtain ⟨-, -, -, rfl⟩ :=
      (Misbehaviour.new_ok_iff hasher cv cid h1 h2 m).mp hm
    rfl

/-- Witness for C2: a concrete lower-height header1 is rejected with the
height reason, and a concrete successful construction reports header1's
height. -/
theorem C2_height_rejection_witness :
    (Misbehaviour.new sampleHasher sampleCommitValidator sampleClientId
        goodHeader goodHeaderHigh =
      Except.error (Error.InvalidRawMisbehaviour
        (heightMismatchReason goodHeader goodHeaderHigh))) ∧
    Misbehaviour.height
        { client_id := sampleClientId, header1 := goodHeaderHigh,
          header2 := goodHeader } =
      goodHeaderHigh.height :=
  ⟨(C2_height_rejection sampleHasher sampleCommitValidator sampleClientId
      goodHeader goodHeaderHigh rfl).1.mpr rfl,
   (C2_height_rejection sampleHasher sampleCommitValidator sampleClientId
      goodHeaderHigh goodHeader rfl).2.2 _ rfl⟩

/-- C3: for one header's untrusted state, the current-validator-set check
recomputes the hash via the Hasher and succeeds exactly on match, rejecting
on mismatch with an error naming both the header-embedded hash and the
recomputed hash; the next-validator-set check runs the very same comparison
when a next-validator set is present and succeeds vacuously when it is
absent. -/
theorem C3_validator_set_checks (hasher : Hasher) (u : UntrustedBlockState) :
    (hasher.hash_validator_set u.validators =
        u.signed_header.header.validators_hash →
      Misbehaviour.verify_cur_validator_sets hasher u = Except.ok ()) ∧
    (hasher.hash_validator_set u.validators ≠
        u.signed_header.header.validators_hash →
      Misbehaviour.verify_cur_validator_sets hasher u =
        Except.error (Error.Validation
          ("invalid validator set: header_validators_hash " ++
            toString u.signed_header.header.validators_hash ++
            ", validators_hash " ++
            toString (hasher.hash_validator_set u.validators)))) ∧
    (∀ vs, u.next_validators = some vs →
      Misbehaviour.verify_next_validator_sets hasher u =
        Misbehaviour.verify_validator_sets (hasher.hash_validator_set vs)
          u.signed_header.header.next_validators_hash) ∧
    (u.next_validators = none →
      Misbehaviour.verify_next_validator_sets hasher u = Except.ok ()) := by
  refine ⟨?_, ?_, ?_, ?_⟩
  · exact Misbehaviour.verify_cur_validator_sets_ok_of hasher u
  · intro hne
    simp only [Misbehaviour.verify_cur_validator_sets,
      Misbehaviour.verify_validator_sets]
    rw [if_neg (fun he => hne he.symm)]
  · intro vs hn
    simp only [Misbehaviour.verify_next_validator_sets, hn]
  · intro hn
    simp only [Misbehaviour.verify_next_validator_sets, hn]

/-- Witness for C3: a concrete mismatching header is rejected naming both
hashes, a concrete matching one passes, and an absent next-validator set is
skipped. -/
theorem C3_validator_set_checks_witness :
    (Misbehaviour.verify_cur_validator_sets sampleHasher
        goodHeader.as_untrusted_block_state = Except.ok ()) ∧
    (Misbehaviour.verify_cur_validator_sets sampleHasher
        badValidatorsHashHeader.as_untrusted_block_state =
      Except.error (Error.Validation
        "invalid validator set: header_validators_hash 1, validators_hash 0")) ∧
    (Misbehaviour.verify_next_validator_sets sampleHasher
        goodHeader.as_untrusted_block_state = Except.ok ()) :=
  ⟨(C3_validator_set_checks sampleHasher
      goodHeader.as_untrusted_block_state).1 rfl,
   (C3_validator_set_checks sampleHasher
      badValidatorsHashHeader.as_untrusted_block_state).2.1 (by decide),
   (C3_validator_set_checks sampleHasher
      goodHeader.as_untrusted_block_state).2.2.2 rfl⟩

/-- C4: for one header's untrusted state, the header/commit binding check
recomputes the header's own hash and succeeds exactly when it equals the
commit's block id hash, rejecting on mismatch with an error naming both
hash values; in the factory, with the guards and validator-set checks
passed, a binding mismatch on either header aborts construction with that
error. -/
theorem C4_header_commit_binding (hasher : Hasher) (cv : CommitValidator)
    (cid : ClientId) (h1 h2 : Header) :
    (∀ u : UntrustedBlockState,
      (Misbehaviour.verify_header_commit hasher u = Except.ok () ↔
        hasher.hash_header u.signed_header.header =
          u.signed_header.commit.block_id.hash) ∧
      (hasher.hash_header u.signed_header.header ≠
          u.signed_header.commit.block_id.hash →
        Misbehaviour.verify_header_commit hasher u =
          Except.error (Error.Validation
            ("invalid header commit: header_hash " ++
              toString (hasher.hash_header u.signed_header.header) ++
              ", commit_hash " ++
              toString u.signed_header.commit.block_id.hash)))) ∧
    (∀ e, h1.signed_header.header.chain_id =
        h2.signed_header.header.chain_id →
      Height.lt h1.height h2.height = false →
      Misbehaviour.validatorSetChecks hasher h1.as_untrusted_block_state
        h2.as_untrusted_block_state = Except.ok () →
      Misbehaviour.headerCommitChecks hasher h1.as_untrusted_block_state
        h2.as_untrusted_block_state = Except.error e →
      Misbehaviour.new hasher cv cid h1 h2 = Except.error e) := by
  constructor
  · intro u
    constructor
    · constructor
      · intro h
        by_cases hh : hasher.hash_header u.signed_header.header =
            u.signed_header.commit.block_id.hash
        · exact hh
        · simp only [Misbehaviour.verify_header_commit] at h
          rw [if_neg hh] at h
          exact absurd h (by simp)
      · exact Misbehaviour.verify_header_commit_ok_of hasher u
    · intro hne
      simp only [Misbehaviour.verify_header_commit]
      rw [if_neg hne]
  · intro e hch hlt hvs hhc
    refine Misbehaviour.new_error_of_hashChecks hasher cv cid h1 h2 e
      hch hlt ?_
    simp only [Misbehaviour.hashChecks, hvs, hhc, ebind_ok, ebind_error]

/-- Witness for C4: the binding check passes on a matching concrete header,
fails naming both hashes on a mismatching one, and aborts a concrete
construction whose guards and validator-set checks pass. -/
theorem C4_header_commit_binding_witness :
    (Misbehaviour.verify_header_commit sampleHasher
        goodHeader.as_untrusted_block_state = Except.ok ()) ∧
    (Misbehaviour.verify_header_commit sampleHasher
        badCommitHashHeader.as_untrusted_block_state =
      Except.error (Error.Validation
        "invalid header commit: header_hash 0, commit_hash 7")) ∧
    (Misbehaviour.new sampleHasher sampleCommitValidator sampleClientId
        goodHeader badCommitHashHeader =
      Except.error (Error.Validation
        "invalid header commit: header_hash 0, commit_hash 7")) :=
  ⟨((C4_header_commit_binding sampleHasher sampleCommitValidator
      sampleClientId goodHeader badCommitHashHeader).1
      goodHeader.as_untrusted_block_state).1.mpr rfl,
   ((C4_header_commit_binding sampleHasher sampleCommitValidator
      sampleClientId goodHeader badCommitHashHeader).1
      badCommitHashHeader.as_untrusted_block_state).2 (by decide),
   (C4_header_commit_binding sampleHasher sampleCommitValidator
      sampleClientId goodHeader badCommitHashHeader).2 _ rfl rfl rfl rfl⟩

/-- C8: the factory never compares the two headers' contents: any two
individually well-formed, commit-consistent headers with the same chain id
and equal heights are accepted, and the aggregate stores both arguments
unchanged. In particular the theorem applies when header1 and header2 are
the very same header. -/
theorem C8_identical_headers_accepted (hasher : Hasher)
    (cv : CommitValidator) (cid : ClientId) (h1 h2 : Header)
    (hch : h1.signed_header.header.chain_id =
      h2.signed_header.header.chain_id)
    (hht : h1.height = h2.height)
    (hv1 : hasher.hash_validator_set h1.validators =
      h1.signed_header.header.validators_hash)
    (hv2 : hasher.hash_validator_set h2.validators =
      h2.signed_header.header.validators_hash)
    (hn1 : ∀ vs, h1.next_validators = some vs →
      hasher.hash_validator_set vs =
        h1.signed_header.header.next_validators_hash)
    (hn2 : ∀ vs, h2.next_validators = some vs →
      hasher.hash_validator_set vs =
        h2.signed_header.header.next_validators_hash)
    (hb1 : hasher.hash_header h1.signed_header.header =
      h1.signed_header.commit.block_id.hash)
    (hb2 : hasher.hash_header h2.signed_header.header =
      h2.signed_header.commit.block_id.hash)
    (hq1 : cv.validate h1.signed_header h1.validators = Verdict.Success)
    (hq1f : cv.validate_full h1.signed_header h1.validators =
      Verdict.Success)
    (hq2 : cv.validate h2.signed_header h2.validators = Verdict.Success)
    (hq2f : cv.validate_full h2.signed_header h2.validators =
      Verdict.Success) :
    Misbehaviour.new hasher cv cid h1 h2 =
      Except.ok { client_id := cid, header1 := h1, header2 := h2 } := by
  refine (Misbehaviour.new_ok_iff hasher cv cid h1 h2 _).mpr
    ⟨hch, ?_, ?_, rfl⟩
  · simp [Height.lt, hht]
  · exact Misbehaviour.newChecks_ok_of hasher cv h1 h2
      (Misbehaviour.verify_cur_validator_sets_ok_of hasher _ hv1)
      (Misbehaviour.verify_cur_validator_sets_ok_of hasher _ hv2)
      (Misbehaviour.verify_next_validator_sets_ok_of hasher _ hn1)
      (Misbehaviour.verify_next_validator_sets_ok_of hasher _ hn2)
      (Misbehaviour.verify_header_commit_ok_of hasher _ hb1)
      (Misbehaviour.verify_header_commit_ok_of hasher _ hb2)
      (Misbehaviour.valid_commit_ok_of cv _ hq1 hq1f)
      (Misbehaviour.valid_commit_ok_of cv _ hq2 hq2f)

/-- Witness for C8: two copies of the very same concrete header are
accepted. -/
theorem C8_identical_headers_accepted_witness :
    Misbehaviour.new sampleHasher sampleCommitValidator sampleClientId
        goodHeader goodHeader =
      Except.ok { client_id := sampleClientId, header1 := goodHeader,
                  header2 := goodHeader } :=
  C8_identical_headers_accepted sampleHasher sampleCommitValidator
    sampleClientId goodHeader goodHeader rfl rfl rfl rfl
    (fun _ h => nomatch h) (fun _ h => nomatch h) rfl rfl rfl rfl rfl rfl

/-- C9: every factory-produced aggregate has identical chain ids in its two
headers, so `chain_id_matches` never hits its internal consistency
assertion (modelled as `none`) and returns exactly the string equality of
the shared chain id against the candidate. -/
theorem C9_chain_id_matches_safe (hasher : Hasher) (cv : CommitValidator)
    (cid : ClientId) (h1 h2 : Header) (m : Misbehaviour)
    (hnew : Misbehaviour.new hasher cv cid h1 h2 = Except.ok m) :
    m.header1.signed_header.header.chain_id =
      m.header2.signed_header.header.chain_id ∧
    ∀ c : ChainId, Misbehaviour.chain_id_matches m c =
      some (m.header1.signed_header.header.chain_id == c.as_str) := by
  obtain ⟨hch, -, -, rfl⟩ :=
    (Misbehaviour.new_ok_iff hasher cv cid h1 h2 m).mp hnew
  refine ⟨hch, ?_⟩
  intro c
  simp only [Misbehaviour.chain_id_matches]
  rw [if_pos hch]

/-- Witness for C9: on a concrete factory-produced aggregate the assertion
does not fire and the candidate comparison is returned. -/
theorem C9_chain_id_matches_safe_witness :
    Misbehaviour.chain_id_matches
        { client_id := sampleClientId, header1 := goodHeader,
          header2 := goodHeader2 }
        { id := "chain-a" } = some true :=
  (C9_chain_id_matches_safe sampleHasher sampleCommitValidator
    sampleClientId goodHeader goodHeader2 _ rfl).2 { id := "chain-a" }

/-- C10: the client id plays no role in validation: for any two client ids
the factory fails with exactly the same error, succeeds for one exactly
when it succeeds for the other, and on success stores the supplied client
id unchanged (the `client_id` accessor returns it). -/
theorem C10_client_id_irrelevant (hasher : Hasher) (cv : CommitValidator)
    (c c' : ClientId) (h1 h2 : Header) :
    (∀ e, Misbehaviour.new hasher cv c h1 h2 = Except.error e ↔
      Misbehaviour.new hasher cv c' h1 h2 = Except.error e) ∧
    ((∃ m, Misbehaviour.new hasher cv c h1 h2 = Except.ok m) ↔
      (∃ m, Misbehaviour.new hasher cv c' h1 h2 = Except.ok m)) ∧
    (∀ m, Misbehaviour.new hasher cv c h1 h2 = Except.ok m →
      m.client_id = c) := by
  refine ⟨?_, ?_, ?_⟩
  · intro e
    rw [Misbehaviour.new_error_iff, Misbehaviour.new_error_iff]
  · constructor
    · rintro ⟨m, hm⟩
      obtain ⟨hch, hlt, hchk, rfl⟩ :=
        (Misbehaviour.new_ok_iff hasher cv c h1 h2 m).mp hm
      exact ⟨_, (Misbehaviour.new_ok_iff hasher cv c' h1 h2 _).mpr
        ⟨hch, hlt, hchk, rfl⟩⟩
    · rintro ⟨m, hm⟩
      obtain ⟨hch, hlt, hchk, rfl⟩ :=
        (Misbehaviour.new_ok_iff hasher cv c' h1 h2 m).mp hm
      exact ⟨_, (Misbehaviour.new_ok_iff hasher cv c h1 h2 _).mpr
        ⟨hch, hlt, hchk, rfl⟩⟩
  · intro m hm
    obtain ⟨-, -, -, rfl⟩ :=
      (Misbehaviour.new_ok_iff hasher cv c h1 h2 m).mp hm
    rfl

/-- A second sample client id, different from `sampleClientId`. -/
def otherClientId : ClientId := { id := "some-other-client" }

/-- Witness for C10: the same concrete chain-id-mismatch error under a
different client id, a concrete success transported to the other client id,
and the stored client id on a concrete success. -/
theorem C10_client_id_irrelevant_witness :
    (Misbehaviour.new sampleHasher sampleCommitValidator otherClientId
        goodHeader otherChainHeader =
      Except.error chainIdMismatchError) ∧
    (∃ m, Misbehaviour.new sampleHasher sampleCommitValidator otherClientId
      goodHeader goodHeader2 = Except.ok m) ∧
    Misbehaviour.client_id
        { client_id := sampleClientId, header1 := goodHeader,
          header2 := goodHeader2 } =
      sampleClientId :=
  ⟨((C10_client_id_irrelevant sampleHasher sampleCommitValidator
      sampleClientId otherClientId goodHeader otherChainHeader).1
      chainIdMismatchError).mp rfl,
   (C10_client_id_irrelevant sampleHasher sampleCommitValidator
      sampleClientId otherClientId goodHeader goodHeader2).2.1.mp
      ⟨_, rfl⟩,
   (C10_client_id_irrelevant sampleHasher sampleCommitValidator
      sampleClientId otherClientId goodHeader goodHeader2).2.2 _ rfl⟩

/-- Sample wire codec for the witnesses: the buffer type is the raw payload
itself, so encode and decode are mutually inverse. -/
def sampleWireCodec : WireCodec RawMisbehaviour :=
  { encode := fun r => r
    decode := fun r => Except.ok r }

/-- Sample wire codec whose decode always fails. -/
def failWireCodec : WireCodec RawMisbehaviour :=
  { encode := fun r => r
    decode := fun _ => Except.error "bad wire" }

/-- Sample header codec for the witnesses: wraps and unwraps the opaque raw
header. -/
def sampleHeaderCodec : HeaderCodec :=
  { toRaw := fun h => { payload := h }
    fromRaw := fun r => Except.ok r.payload }

/-- Sample client id parser that accepts every string. -/
def sampleParse : String → Option ClientId := fun s => some { id := s }

/-- A sample raw payload with both headers missing. -/
def sampleRawMisbehaviour : RawMisbehaviour :=
  { client_id := "07-tendermint-0", header_1 := none, header_2 := none }

/-- Sample client id parser that rejects every string. -/
def failingParse : String → Option ClientId := fun _ => none

/-- C5: round-trip law. Given that the external sub-codecs round-trip
(prost byte codec, header wire conversions, client id parse of its own
string), decoding the encoded envelope of any factory-produced evidence
value succeeds and returns a structurally equal value. -/
theorem C5_roundtrip {β : Type} (wc : WireCodec β) (hc : HeaderCodec)
    (parse : String → Option ClientId) (hasher : Hasher)
    (cv : CommitValidator)
    (hwc : ∀ r, wc.decode (wc.encode r) = Except.ok r)
    (hhc : ∀ h, hc.fromRaw (hc.toRaw h) = Except.ok h)
    (hp : ∀ c : ClientId, parse c.id = some c)
    (cid : ClientId) (h1 h2 : Header) (m : Misbehaviour)
    (hnew : Misbehaviour.new hasher cv cid h1 h2 = Except.ok m) :
    Misbehaviour.try_from_any wc hc parse hasher cv
        (Misbehaviour.to_any wc hc m) = Except.ok m := by
  obtain ⟨hch, hlt, hchk, rfl⟩ :=
    (Misbehaviour.new_ok_iff hasher cv cid h1 h2 m).mp hnew
  have hdm : decode_misbehaviour wc hc parse hasher cv
      (wc.encode (RawMisbehaviour.from_misbehaviour hc
        { client_id := cid, header1 := h1, header2 := h2 })) =
      Except.ok { client_id := cid, header1 := h1, header2 := h2 } := by
    simp only [decode_misbehaviour, RawMisbehaviour.from_misbehaviour, hwc,
      Misbehaviour.try_from_raw, hp, hhc, ebind_ok]
    exact hnew
  simp only [Misbehaviour.to_any, Misbehaviour.try_from_any]
  rw [if_pos trivial, hdm]

/-- Witness for C5: a concrete factory-produced value survives the
encode/decode round trip. -/
theorem C5_roundtrip_witness :
    Misbehaviour.try_from_any sampleWireCodec sampleHeaderCodec sampleParse
        sampleHasher sampleCommitValidator
        (Misbehaviour.to_any sampleWireCodec sampleHeaderCodec
          { client_id := sampleClientId, header1 := goodHeader,
            header2 := goodHeader2 }) =
      Except.ok { client_id := sampleClientId, header1 := goodHeader,
                  header2 := goodHeader2 } :=
  C5_roundtrip sampleWireCodec sampleHeaderCodec sampleParse sampleHasher
    sampleCommitValidator (fun _ => rfl) (fun _ => rfl) (fun _ => rfl)
    sampleClientId goodHeader goodHeader2 _ rfl

/-- C6: decoding an envelope with an unrecognized tag fails with the
unknown-misbehaviour-type error carrying exactly that tag, and the result
does not depend on the payload codec, the header codec, the parser or the
validation capabilities: the payload is never parsed. -/
theorem C6_unknown_tag {β : Type} (wc wc' : WireCodec β)
    (hc hc' : HeaderCodec) (parse parse' : String → Option ClientId)
    (hasher hasher' : Hasher) (cv cv' : CommitValidator) (a : Any β)
    (h : a.type_url ≠ TENDERMINT_MISBEHAVIOUR_TYPE_URL) :
    Misbehaviour.try_from_any wc hc parse hasher cv a =
      Except.error (ClientError.UnknownMisbehaviourType a.type_url) ∧
    Misbehaviour.try_from_any wc hc parse hasher cv a =
      Misbehaviour.try_from_any wc' hc' parse' hasher' cv' a := by
  constructor
  · simp only [Misbehaviour.try_from_any]
    rw [if_neg h]
  · simp only [Misbehaviour.try_from_any]
    rw [if_neg h, if_neg h]

/-- Witness for C6: a concrete bogus tag is rejected carrying the tag. -/
theorem C6_unknown_tag_witness :
    Misbehaviour.try_from_any sampleWireCodec sampleHeaderCodec sampleParse
        sampleHasher sampleCommitValidator
        { type_url := "/bogus.Type", value := sampleRawMisbehaviour } =
      Except.error (ClientError.UnknownMisbehaviourType "/bogus.Type") :=
  (C6_unknown_tag sampleWireCodec failWireCodec sampleHeaderCodec
    sampleHeaderCodec sampleParse failingParse sampleHasher sampleHasher
    sampleCommitValidator rejectingCommitValidator
    { type_url := "/bogus.Type", value := sampleRawMisbehaviour }
    (by decide)).1

/-- C7: the decoder reports malformed-payload failures distinctly and
before any validation: undecodable bytes give a decode error; an invalid
client id string, a missing header1 and a missing header2 each give their
own error, in that order, regardless of the validation capabilities; with
a well-formed payload the decoder is exactly the validating factory on the
deserialized fields; hence every successfully decoded value passes the
factory on its own fields. -/
theorem C7_decode_validates {β : Type} (wc : WireCodec β)
    (hc : HeaderCodec) (parse : String → Option ClientId)
    (hasher : Hasher) (cv : CommitValidator) :
    (∀ (buf : β) err, wc.decode buf = Except.error err →
      decode_misbehaviour wc hc parse hasher cv buf =
        Except.error (Error.Decode err)) ∧
    (∀ raw : RawMisbehaviour, parse raw.client_id = none →
      Misbehaviour.try_from_raw hc parse hasher cv raw =
        Except.error (Error.InvalidRawClientId raw.client_id)) ∧
    (∀ (raw : RawMisbehaviour) c, parse raw.client_id = some c →
      raw.header_1 = none →
      Misbehaviour.try_from_raw hc parse hasher cv raw =
        Except.error (Error.InvalidRawMisbehaviour "missing header1")) ∧
    (∀ (raw : RawMisbehaviour) c r1 hd1, parse raw.client_id = some c →
      raw.header_1 = some r1 → hc.fromRaw r1 = Except.ok hd1 →
      raw.header_2 = none →
      Misbehaviour.try_from_raw hc parse hasher cv raw =
        Except.error (Error.InvalidRawMisbehaviour "missing header2")) ∧
    (∀ (raw : RawMisbehaviour) c r1 hd1 r2 hd2,
      parse raw.client_id = some c →
      raw.header_1 = some r1 → hc.fromRaw r1 = Except.ok hd1 →
      raw.header_2 = some r2 → hc.fromRaw r2 = Except.ok hd2 →
      Misbehaviour.try_from_raw hc parse hasher cv raw =
        Misbehaviour.new hasher cv c hd1 hd2) ∧
    (∀ (buf : β) m,
      decode_misbehaviour wc hc parse hasher cv buf = Except.ok m →
      Misbehaviour.new hasher cv m.client_id m.header1 m.header2 =
        Except.ok m) := by
  refine ⟨?_, ?_, ?_, ?_, ?_, ?_⟩
  · intro buf err hd
    simp only [decode_misbehaviour, hd, ebind_error]
  · intro raw hp
    simp only [Misbehaviour.try_from_raw, hp, ebind_error]
  · intro raw c hp h1n
    simp only [Misbehaviour.try_from_raw, hp, h1n, ebind_ok, ebind_error]
  · intro raw c r1 hd1 hp h1s hf1 h2n
    simp only [Misbehaviour.try_from_raw, hp, h1s, hf1, h2n, ebind_ok,
      ebind_error]
  · intro raw c r1 hd1 r2 hd2 hp h1s hf1 h2s hf2
    simp only [Misbehaviour.try_from_raw, hp, h1s, hf1, h2s, hf2, ebind_ok]
  · intro buf m hdec
    simp only [decode_misbehaviour] at hdec
    cases hd : wc.decode buf with
    | error err =>
      rw [hd] at hdec
      simp only [ebind_error] at hdec
      exact Except.noConfusion hdec
    | ok raw =>
      rw [hd] at hdec
      simp only [ebind_ok, Misbehaviour.try_from_raw] at hdec
      cases hp : parse raw.client_id with
      | none =>
        rw [hp] at hdec
        simp only [ebind_error] at hdec
        exact Except.noConfusion hdec
      | some c =>
        rw [hp] at hdec
        simp only [ebind_ok] at hdec
        cases h1s : raw.header_1 with
        | none =>
          rw [h1s] at hdec
          simp only [ebind_error] at hdec
          exact Except.noConfusion hdec
        | some r1 =>
          rw [h1s] at hdec
          simp only [] at hdec
          cases hf1 : hc.fromRaw r1 with
          | error e =>
            rw [hf1] at hdec
            simp only [ebind_error] at hdec
            exact Except.noConfusion hdec
          | ok hd1 =>
            rw [hf1] at hdec
            simp only [ebind_ok] at hdec
            cases h2s : raw.header_2 with
            | none =>
              rw [h2s] at hdec
              simp only [ebind_error] at hdec
              exact Except.noConfusion hdec
            | some r2 =>
              rw [h2s] at hdec
              simp only [] at hdec
              cases hf2 : hc.fromRaw r2 with
              | error e =>
                rw [hf2] at hdec
                simp only [ebind_error] at hdec
                exact Except.noConfusion hdec
              | ok hd2 =>
                rw [hf2] at hdec
                simp only [ebind_ok] at hdec
                obtain ⟨-, -, -, rfl⟩ :=
                  (Misbehaviour.new_ok_iff hasher cv c hd1 hd2 m).mp hdec
                exact hdec

/-- A sample raw payload carrying only header1. -/
def rawWithHeader1 : RawMisbehaviour :=
  { client_id := "07-tendermint-0"
    header_1 := some { payload := goodHeader }
    header_2 := none }

/-- A sample raw payload carrying both headers. -/
def rawFull : RawMisbehaviour :=
  { client_id := "07-tendermint-0"
    header_1 := some { payload := goodHeader }
    header_2 := some { payload := goodHeader2 } }

/-- Witness for C7: each distinct malformed-payload failure on a concrete
payload, the pass-through to the factory on a concrete well-formed payload,
and a concrete decoded value that passes the factory on its own fields. -/
theorem C7_decode_validates_witness :
    (decode_misbehaviour failWireCodec sampleHeaderCodec sampleParse
        sampleHasher sampleCommitValidator sampleRawMisbehaviour =
      Except.error (Error.Decode "bad wire")) ∧
    (Misbehaviour.try_from_raw sampleHeaderCodec failingParse sampleHasher
        sampleCommitValidator sampleRawMisbehaviour =
      Except.error (Error.InvalidRawClientId "07-tendermint-0")) ∧
    (Misbehaviour.try_from_raw sampleHeaderCodec sampleParse sampleHasher
        sampleCommitValidator sampleRawMisbehaviour =
      Except.error (Error.InvalidRawMisbehaviour "missing header1")) ∧
    (Misbehaviour.try_from_raw sampleHeaderCodec sampleParse sampleHasher
        sampleCommitValidator rawWithHeader1 =
      Except.error (Error.InvalidRawMisbehaviour "missing header2")) ∧
    (Misbehaviour.try_from_raw sampleHeaderCodec sampleParse sampleHasher
        sampleCommitValidator rawFull =
      Misbehaviour.new sampleHasher sampleCommitValidator
        { id := "07-tendermint-0" } goodHeader goodHeader2) ∧
    (Misbehaviour.new sampleHasher sampleCommitValidator
        { id := "07-tendermint-0" } goodHeader goodHeader2 =
      Except.ok { client_id := { id := "07-tendermint-0" },
                  header1 := goodHeader, header2 := goodHeader2 }) :=
  ⟨(C7_decode_validates failWireCodec sampleHeaderCodec sampleParse
      sampleHasher sampleCommitValidator).1 sampleRawMisbehaviour
      "bad wire" rfl,
   (C7_decode_validates sampleWireCodec sampleHeaderCodec failingParse
      sampleHasher sampleCommitValidator).2.1 sampleRawMisbehaviour rfl,
   (C7_decode_validates sampleWireCodec sampleHeaderCodec sampleParse
      sampleHasher sampleCommitValidator).2.2.1 sampleRawMisbehaviour
      { id := "07-tendermint-0" } rfl rfl,
   (C7_decode_validates sampleWireCodec sampleHeaderCodec sampleParse
      sampleHasher sampleCommitValidator).2.2.2.1 rawWithHeader1
      { id := "07-tendermint-0" } { payload := goodHeader } goodHeader
      rfl rfl rfl rfl,
   (C7_decode_validates sampleWireCodec sampleHeaderCodec sampleParse
      sampleHasher sampleCommitValidator).2.2.2.2.1 rawFull
      { id := "07-tendermint-0" } { payload := goodHeader } goodHeader
      { payload := goodHeader2 } goodHeader2 rfl rfl rfl rfl rfl,
   (C7_decode_validates sampleWireCodec sampleHeaderCodec sampleParse
      sampleHasher sampleCommitValidator).2.2.2.2.2 rawFull
      { client_id := { id := "07-tendermint-0" }, header1 := goodHeader,
        header2 := goodHeader2 } rfl⟩
